import Mathlib

/-!
Shallow embedding of the node-sqlite benchmark repository (src/database.js)
and theorems checking the specification claims against it.

Modelling conventions:
* JavaScript numbers used for wall-clock seconds (`Date.now() / 1000`) are
  modelled as rationals.  `Date.now()` itself returns integer milliseconds,
  modelled as a natural number where the code uses it directly.
* `Math.random()` and the random string generator are modelled as oracle
  streams supplied in the environment (`readRand`, `authors`, ...).
* Wall-clock time is modelled as oracle streams as well: `writeElapsed k` is
  the elapsed time since the write-phase start observed at the k-th check of
  the write loop, and `readElapsed k` (resp. update/delete) is the elapsed
  time observed at the end of the k-th iteration of that phase loop, exactly
  where the source samples `Date.now()`.
* While-loops are given fuel; a `none` result means the fuel ran out, which
  is a model artifact, never a program behaviour.  Claims speak about
  completed calls, i.e. `some` results.
* `better-sqlite3` raises a `TypeError` when a statement parameter is bound
  to `undefined`; reading `newRecords[i]` out of range yields `undefined`,
  so the model returns an error value in that case.
* JavaScript division never faults: `0 / 0` is `NaN` and `x / 0` is an
  infinity, and `Math.round` maps non-finite values to themselves.  The
  model therefore returns `Option` values for the derived rates, `none`
  standing for the non-finite outcome.
-/

set_option maxRecDepth 100000

deriving instance DecidableEq for Except

namespace NodeSqlite

/-- Fixed constant from src/database.js: freshness window of the result cache
in seconds (`maxCacheSeconds = 300`). -/
def maxCacheSeconds : ℚ := 300

/-- Fixed constant from src/database.js: duration budget of one workload
phase in seconds (`maxSecondsPerTest = 3`). -/
def maxSecondsPerTest : ℚ := 3

/-- Fixed constant from src/database.js: batch size of the write phase
(`chunkSize = 100`). -/
def chunkSize : ℕ := 100

/-- `Math.round` on a finite value: round half towards positive infinity. -/
def jsRound (x : ℚ) : ℤ := ⌊x + 1 / 2⌋

/-- `Math.round(x * 100) / 100` - rounding to two decimal places. -/
def jsRound2 (x : ℚ) : ℚ := (jsRound (x * 100) : ℚ) / 100

/-- `Math.round(num / den)` as it appears in the per-phase rate computations.
When `den = 0` the JavaScript quotient is `NaN` (for `num = 0`) or an
infinity, and `Math.round` keeps it non-finite; `none` models that
non-finite outcome.  No fault is raised. -/
def jsRoundDiv (num den : ℚ) : Option ℤ :=
  if den = 0 then none else some (jsRound (num / den))

/-- JavaScript division producing `none` for the non-finite `den = 0` case. -/
def jsDivQ (num den : ℚ) : Option ℚ :=
  if den = 0 then none else some (num / den)

/-- One row of the `test_results_cache` table. -/
structure CacheRow where
  id : ℕ
  result : String
  timestamp : ℤ
deriving Repr, DecidableEq

/-- One row of the `comments` table. -/
structure CommentRow where
  id : ℕ
  author : String
  content : String
  test_session : String
  timestamp : ℤ
deriving Repr, DecidableEq

/-- The persistent database file: both tables plus the AUTOINCREMENT
counters for their integer primary keys. -/
structure DBState where
  cache : List CacheRow
  comments : List CommentRow
  nextCacheId : ℕ
  nextCommentId : ℕ
deriving Repr, DecidableEq

/-- A freshly created database file: both tables empty, AUTOINCREMENT
counters starting at 1 as in SQLite. -/
def freshDB : DBState :=
  { cache := [], comments := [], nextCacheId := 1, nextCommentId := 1 }

/-- The value object returned by `runTest`.  Rate fields are `Option`
valued: `none` models the non-finite number produced by a division with a
zero denominator. -/
structure WorkloadResult where
  dbSizeInMb : ℚ
  totalOperations : ℕ
  operationsPerSecond : Option ℤ
  writes : ℕ
  writesPerSecond : Option ℤ
  reads : ℕ
  readsPerSecond : Option ℤ
  updates : ℕ
  updatesPerSecond : Option ℤ
  deletes : ℕ
  deletesPerSecond : Option ℤ
  duration : ℚ
deriving Repr, DecidableEq

/-- Environment of one `runTest` call: the duration budget, the wall-clock
samples and the random oracles, in the order the source samples them. -/
structure RunEnv where
  maxDuration : ℚ
  sessionNowMs : ℕ
  writeElapsed : ℕ → ℚ
  readElapsed : ℕ → ℚ
  updateElapsed : ℕ → ℚ
  deleteElapsed : ℕ → ℚ
  finalElapsed : ℚ
  authors : ℕ → String
  contents : ℕ → String
  updateContents : ℕ → String
  readRand : ℕ → ℚ
  updateRand : ℕ → ℚ
  dbFileSizeBytes : ℕ

/-- `const testSessionId = ` followed by the template `test_` and
`Date.now()` interpolated. -/
def sessionIdOf (env : RunEnv) : String :=
  "test_" ++ toString env.sessionNowMs

/-- `const currentTimestamp = Math.floor(Date.now() / 1000)`. -/
def currentTimestampOf (env : RunEnv) : ℤ :=
  ((env.sessionNowMs / 1000 : ℕ) : ℤ)

/-- `INSERT INTO comments (author, content, test_session, timestamp)
VALUES (?, ?, ?, ?)`; returns the new state and `lastInsertRowid`. -/
def insertComment (st : DBState) (author content sid : String) (ts : ℤ) :
    DBState × ℕ :=
  let row : CommentRow :=
    ⟨st.nextCommentId, author, content, sid, ts⟩
  ({ st with comments := st.comments ++ [row], nextCommentId := st.nextCommentId + 1 },
   st.nextCommentId)

/-- `SELECT * FROM comments WHERE id = ?`. -/
def selectComment (st : DBState) (id : ℕ) : Option CommentRow :=
  st.comments.find? (fun r => r.id == id)

/-- `UPDATE comments SET content = ? WHERE id = ?`. -/
def updateComment (st : DBState) (newContent : String) (id : ℕ) : DBState :=
  { st with
      comments := st.comments.map
                    (fun r => if r.id = id then { r with content := newContent } else r) }

/-- `DELETE FROM comments WHERE id = ?`. -/
def deleteComment (st : DBState) (id : ℕ) : DBState :=
  { st with comments := st.comments.filter (fun r => r.id != id) }

/-- `DELETE FROM comments WHERE test_session = ?`. -/
def cleanupComments (st : DBState) (sid : String) : DBState :=
  { st with comments := st.comments.filter (fun r => r.test_session != sid) }

/-- `SELECT * FROM test_results_cache ORDER BY timestamp DESC LIMIT 1`:
some row of maximal timestamp (the first one in scan order on a tie). -/
def selectNewestCache (rows : List CacheRow) : Option CacheRow :=
  rows.foldl
    (fun acc r =>
      match acc with
      | none => some r
      | some b => if b.timestamp < r.timestamp then some r else some b)
    none

/-- `INSERT INTO test_results_cache (result, timestamp) VALUES (?, ?)`. -/
def insertCacheRow (st : DBState) (res : String) (ts : ℤ) : DBState :=
  { st with
      cache := st.cache ++ [{ id := st.nextCacheId, result := res, timestamp := ts }],
      nextCacheId := st.nextCacheId + 1 }

/-- `newRecords[Math.floor(Math.random() * newRecords.length)]`: `none`
models the `undefined` produced by an out-of-range index. -/
def jsIndex (recs : List ℕ) (r : ℚ) : Option ℕ :=
  let idx : ℤ := ⌊r * (recs.length : ℚ)⌋
  if 0 ≤ idx then recs.get? idx.toNat else none

/-- The inner `for (let j = 0; j < chunkSize; j++)` body of the write phase:
insert one synthetic record, push `lastInsertRowid`, increment `writes`.
The random author/content strings are drawn from the oracle streams,
indexed by the running write counter. -/
def writeChunk (env : RunEnv) (sid : String) (ts : ℤ) :
    ℕ → DBState → ℕ → List ℕ → DBState × ℕ × List ℕ
  | 0, st, writes, recs => (st, writes, recs)
  | j + 1, st, writes, recs =>
      let ins := insertComment st (env.authors writes) (env.contents writes) sid ts
      writeChunk env sid ts j ins.1 (writes + 1) (recs ++ [ins.2])

/-- The write-phase loop:
`while ((Date.now() / 1000) - writeStart < maxDuration)` insert one batch of
`chunkSize` records inside a transaction.  The returned rational is the
elapsed time observed when the loop exits (`writeTime`). -/
def writeLoop (env : RunEnv) (sid : String) (ts : ℤ) :
    ℕ → ℕ → DBState → ℕ → List ℕ → Option (DBState × ℕ × List ℕ × ℚ)
  | 0, _, _, _, _ => none
  | fuel + 1, k, st, writes, recs =>
      if env.writeElapsed k < env.maxDuration then
        let out := writeChunk env sid ts chunkSize st writes recs
        writeLoop env sid ts fuel (k + 1) out.1 out.2.1 out.2.2
      else some (st, writes, recs, env.writeElapsed k)

/-- Error message standing for the `TypeError` raised by better-sqlite3
when the read phase binds `undefined` (out-of-range `newRecords` index). -/
def readBindErr : String := "TypeError: cannot bind undefined (read phase)"

/-- Error message for the same situation in the update phase. -/
def updateBindErr : String := "TypeError: cannot bind undefined (update phase)"

/-- The read-phase loop: `while (readDuration < maxDuration)` pick a random
known identifier and fetch that row; `readDuration` starts at 0 and is
re-sampled at the end of each iteration.  Returns the read counter, the
final `readDuration` and the list of identifiers used. -/
def readLoop (env : RunEnv) (st : DBState) (recs : List ℕ) :
    ℕ → ℕ → ℚ → ℕ → List ℕ → Option (Except String (ℕ × ℚ × List ℕ))
  | 0, _, _, _, _ => none
  | fuel + 1, k, dur, reads, used =>
      if dur < env.maxDuration then
        match jsIndex recs (env.readRand k) with
        | none => some (Except.error readBindErr)
        | some id =>
            let _sel := selectComment st id
            readLoop env st recs fuel (k + 1) (env.readElapsed k) (reads + 1)
              (used ++ [id])
      else some (Except.ok (reads, dur, used))

/-- The update-phase loop: pick a random known identifier and overwrite its
content with a fresh random string. -/
def updateLoop (env : RunEnv) (recs : List ℕ) :
    ℕ → ℕ → ℚ → ℕ → List ℕ → DBState →
      Option (Except String (DBState × ℕ × ℚ × List ℕ))
  | 0, _, _, _, _, _ => none
  | fuel + 1, k, dur, updates, used, st =>
      if dur < env.maxDuration then
        match jsIndex recs (env.updateRand k) with
        | none => some (Except.error updateBindErr)
        | some id =>
            updateLoop env recs fuel (k + 1) (env.updateElapsed k)
              (updates + 1) (used ++ [id])
              (updateComment st (env.updateContents k) id)
      else some (Except.ok (st, updates, dur, used))

/-- The delete-phase loop:
`while (deleteDuration < maxDuration && newRecords.length > 0)` pop the most
recently known identifier and delete that row.  Returns the state, the
delete counter, the final duration, the deleted identifiers and the
identifiers still known when the loop stopped. -/
def deleteLoop (env : RunEnv) :
    ℕ → ℕ → ℚ → ℕ → List ℕ → List ℕ → DBState →
      Option (DBState × ℕ × ℚ × List ℕ × List ℕ)
  | 0, _, _, _, _, _, _ => none
  | fuel + 1, k, dur, deletes, used, recs, st =>
      if dur < env.maxDuration then
        match recs.getLast? with
        | none => some (st, deletes, dur, used, recs)
        | some id =>
            deleteLoop env fuel (k + 1) (env.deleteElapsed k) (deletes + 1)
              (used ++ [id]) recs.dropLast (deleteComment st id)
      else some (st, deletes, dur, used, recs)

/-- Everything observable about one completed `runTest` call: the returned
value object, the session tag, the identifiers produced and used by each
phase, the identifiers still known after the delete phase, the final
delete-phase duration and the database state after cleanup. -/
structure RunTrace where
  result : WorkloadResult
  sessionId : String
  writtenIds : List ℕ
  readIds : List ℕ
  updatedIds : List ℕ
  deletedIds : List ℕ
  remainingIds : List ℕ
  deleteDuration : ℚ
  finalState : DBState
deriving Repr, DecidableEq

/-- The workload generator `runTest` of src/database.js: four sequential
timed phases, cleanup, sizing and aggregation.  `none` means the fuel ran
out; `Except.error` models a thrown JavaScript exception. -/
def runTest (fuel : ℕ) (env : RunEnv) (st : DBState) :
    Option (Except String RunTrace) :=
  let sid := sessionIdOf env
  let ts := currentTimestampOf env
  match writeLoop env sid ts fuel 0 st 0 [] with
  | none => none
  | some (st1, writes, recs, writeTime) =>
    let writesPerSecond := jsRoundDiv (writes : ℚ) writeTime
    match readLoop env st1 recs fuel 0 0 0 [] with
    | none => none
    | some (Except.error e) => some (Except.error e)
    | some (Except.ok (reads, readDur, readIds)) =>
      let readsPerSecond := jsRoundDiv (reads : ℚ) readDur
      match updateLoop env recs fuel 0 0 0 [] st1 with
      | none => none
      | some (Except.error e) => some (Except.error e)
      | some (Except.ok (st2, updates, updateDur, updatedIds)) =>
        let updatesPerSecond := jsRoundDiv (updates : ℚ) updateDur
        match deleteLoop env fuel 0 0 0 [] recs st2 with
        | none => none
        | some (st3, deletes, deleteDur, deletedIds, remaining) =>
          let deletesPerSecond := jsRoundDiv (deletes : ℚ) deleteDur
          let st4 := cleanupComments st3 sid
          let dbSizeInMb := jsRound2 ((env.dbFileSizeBytes : ℚ) / (1024 * 1024))
          let totalOperations := writes + reads + updates + deletes
          let operationsPerSecond :=
            jsRoundDiv (totalOperations : ℚ) (env.maxDuration * 4)
          some (Except.ok
            { result :=
                { dbSizeInMb := dbSizeInMb
                  totalOperations := totalOperations
                  operationsPerSecond := operationsPerSecond
                  writes := writes
                  writesPerSecond := writesPerSecond
                  reads := reads
                  readsPerSecond := readsPerSecond
                  updates := updates
                  updatesPerSecond := updatesPerSecond
                  deletes := deletes
                  deletesPerSecond := deletesPerSecond
                  duration := jsRound2 env.finalElapsed }
              sessionId := sid
              writtenIds := recs
              readIds := readIds
              updatedIds := updatedIds
              deletedIds := deletedIds
              remainingIds := remaining
              deleteDuration := deleteDur
              finalState := st4 })

/-- Process-level state: the module-scoped `db` variable, a counter of
connections ever opened (used to give each `new Database(...)` handle a
fresh identity), and the database file itself, which persists across
opens. -/
structure ProcState where
  dbHandle : Option ℕ
  openCount : ℕ
  store : DBState
deriving Repr, DecidableEq

/-- `initDatabase` of src/database.js: unconditionally runs
`db = new Database(databaseFile)`, applies the pragma profile and the
idempotent `CREATE TABLE IF NOT EXISTS` statements.  The pragmas do not
change table contents and the schema already exists in the model, so the
only state change is the fresh connection assigned to `db`. -/
def initDatabase (p : ProcState) : ProcState :=
  { dbHandle := some p.openCount, openCount := p.openCount + 1, store := p.store }

/-- Environment of one `getCachedTest` call: the wall-clock sample of the
freshness check (`Date.now() / 1000`), the sample taken when storing the
new row, the JSON oracle (`JSON.parse` may fail, modelled by `Option`;
`JSON.stringify` is total on the result object), the workload environment
used on a cache miss and the loop fuel. -/
structure CacheEnv where
  nowCheck : ℚ
  nowStore : ℚ
  parse : String → Option WorkloadResult
  stringify : WorkloadResult → String
  run : RunEnv
  fuel : ℕ

/-- `getCachedTest` of src/database.js.  Returns `none` when the model fuel
runs out, `Except.error` when the JavaScript code throws, and otherwise the
value served to the caller together with the process state after the
call. -/
def getCachedTest (env : CacheEnv) (p : ProcState) :
    Option (Except String (WorkloadResult × ProcState)) :=
  let p1 := initDatabase p
  let refresh : Option (Except String (WorkloadResult × ProcState)) :=
    match runTest env.fuel env.run p1.store with
    | none => none
    | some (Except.error e) => some (Except.error e)
    | some (Except.ok tr) =>
        let st2 : DBState := { tr.finalState with cache := [] }
        let st3 := insertCacheRow st2 (env.stringify tr.result) ⌊env.nowStore⌋
        some (Except.ok (tr.result, { p1 with store := st3 }))
  match selectNewestCache p1.store.cache with
  | some row =>
      if env.nowCheck - (row.timestamp : ℚ) < maxCacheSeconds then
        match env.parse row.result with
        | some v => some (Except.ok (v, p1))
        | none => some (Except.error "SyntaxError: JSON.parse")
      else refresh
  | none => refresh

/-- Host metrics read by `getServerSpecs`: one entry in `cpus` per logical
CPU, holding the model string of that CPU. -/
structure OsState where
  cpus : List String
  platformName : String
  arch : String
  release : String
  totalmem : ℕ
  freemem : ℕ
  loadavg1 : ℚ
deriving Repr, DecidableEq

/-- The flat mapping produced by `getServerSpecs`.  The two usage fields
hold the numeric percentage rendered into the display string; `none`
models the non-finite value produced when the denominator is zero. -/
structure ServerSpecs where
  vCPUs : ℕ
  cpuModel : String
  platformInfo : String
  totalRAM : String
  cpuUsagePct : Option ℚ
  memUsagePct : Option ℚ
deriving Repr, DecidableEq

/-- `getServerSpecs` of src/database.js.  CPU usage is
`Math.round(loadavg[0] / cpus.length * 1000) / 10` and memory usage is
`Math.round((totalmem - freemem) / totalmem * 1000) / 10`, both therefore
percentages with one decimal place; neither is clamped. -/
def getServerSpecs (s : OsState) : ServerSpecs :=
  let cpuModel :=
    match s.cpus.head? with
    | some m => if m = "" then "Unknown" else m
    | none => "Unknown"
  let usedMemory : ℤ := (s.totalmem : ℤ) - (s.freemem : ℤ)
  { vCPUs := s.cpus.length
    cpuModel := cpuModel
    platformInfo := s.platformName ++ ", " ++ s.arch ++ ", " ++ s.release
    totalRAM := toString (jsRound ((s.totalmem : ℚ) / (1024 * 1024 * 1024))) ++ "GB"
    cpuUsagePct :=
      (jsDivQ s.loadavg1 (s.cpus.length : ℚ)).map
        (fun x => (jsRound (x * 1000) : ℚ) / 10)
    memUsagePct :=
      (jsDivQ (usedMemory : ℚ) (s.totalmem : ℚ)).map
        (fun x => (jsRound (x * 1000) : ℚ) / 10) }

/-- A fixed WorkloadResult value, used as the output of the concrete
`JSON.parse` oracle in witnesses and as the all-zero result of a
zero-budget run. -/
def wr0 : WorkloadResult :=
  { dbSizeInMb := 0, totalOperations := 0, operationsPerSecond := none,
    writes := 0, writesPerSecond := none, reads := 0, readsPerSecond := none,
    updates := 0, updatesPerSecond := none, deletes := 0, deletesPerSecond := none,
    duration := 0 }

/-- Concrete run environment with a zero duration budget. -/
def envZero : RunEnv :=
  { maxDuration := 0, sessionNowMs := 0, writeElapsed := fun _ => 0,
    readElapsed := fun _ => 0, updateElapsed := fun _ => 0,
    deleteElapsed := fun _ => 0, finalElapsed := 0, authors := fun _ => "a",
    contents := fun _ => "b", updateContents := fun _ => "c",
    readRand := fun _ => 0, updateRand := fun _ => 0, dbFileSizeBytes := 0 }

/-- Concrete run environment with the real duration budget (3 seconds) in
which 3 seconds of wall-clock time have already passed when the write loop
performs its first check (for example because the process was suspended
between the two `Date.now()` samples), so the write phase produces zero
identifiers. -/
def envStall : RunEnv :=
  { envZero with
      maxDuration := maxSecondsPerTest
      writeElapsed := fun _ => 3
      readElapsed := fun _ => 3
      updateElapsed := fun _ => 3
      deleteElapsed := fun _ => 3 }

/-- Concrete run environment with the real duration budget in which each
phase observes its budget exhausted after one iteration: the write phase
inserts exactly one batch and the other phases run one operation each. -/
def envBig : RunEnv :=
  { envZero with
      maxDuration := maxSecondsPerTest
      writeElapsed := fun k => match k with | 0 => 0 | _ + 1 => 3
      readElapsed := fun _ => 3
      updateElapsed := fun _ => 3
      deleteElapsed := fun _ => 3
      finalElapsed := 12 }

/-- The trace of `runTest` under `envZero` starting from a fresh file. -/
def trZero : RunTrace :=
  { result := wr0, sessionId := "test_0", writtenIds := [], readIds := [],
    updatedIds := [], deletedIds := [], remainingIds := [],
    deleteDuration := 0, finalState := freshDB }

/-- A cache row stored at timestamp 1000. -/
def cacheRowFresh : CacheRow := { id := 1, result := "payload", timestamp := 1000 }

/-- A database file holding exactly one cached result. -/
def storeHit : DBState :=
  { cache := [cacheRowFresh], comments := [], nextCacheId := 2, nextCommentId := 1 }

/-- Process state with an already-open handle and `storeHit` on disk. -/
def procHit : ProcState := { dbHandle := some 0, openCount := 1, store := storeHit }

/-- The process state after one further `getCachedTest` call on the
cache-hit path: a second connection has been opened. -/
def procHitAfter : ProcState := { dbHandle := some 1, openCount := 2, store := storeHit }

/-- The database file after a cache-miss call under `envMiss`: the stale
row deleted, one new row inserted. -/
def storeMissAfter : DBState :=
  { cache := [{ id := 2, result := "s", timestamp := 1301 }], comments := [],
    nextCacheId := 3, nextCommentId := 1 }

/-- The process state after the cache-miss call under `envMiss`. -/
def procMissAfter : ProcState :=
  { dbHandle := some 1, openCount := 2, store := storeMissAfter }

/-- Cache environment whose freshness check happens at age 299 seconds
(one below the freshness window). -/
def envHit : CacheEnv :=
  { nowCheck := 1299, nowStore := 1299, parse := fun _ => some wr0,
    stringify := fun _ => "s", run := envZero, fuel := 1 }

/-- Cache environment whose freshness check happens at age 301 seconds
(one above the freshness window). -/
def envMiss : CacheEnv := { envHit with nowCheck := 1301, nowStore := 1301 }

/-- The trace of the workload run performed by the `envMiss` cache-miss
call: a zero-budget run on `storeHit`. -/
def trMiss : RunTrace := { trZero with finalState := storeHit }

/-- The comments table contents after the write phase of `envBig`. -/
def bigComments : List CommentRow :=
  (List.range' 1 100).map
    (fun i => { id := i, author := "a", content := "b",
                test_session := "test_0", timestamp := 0 })

/-- The database state after the write phase of `envBig` on a fresh file. -/
def stWrite : DBState :=
  { cache := [], comments := bigComments, nextCacheId := 1, nextCommentId := 101 }

/-- The trace of `runTest` under `envBig` starting from a fresh file:
100 writes, 1 read, 1 update, 1 delete, everything cleaned up. -/
def trBig : RunTrace :=
  { result :=
      { dbSizeInMb := 0, totalOperations := 103, operationsPerSecond := some 9,
        writes := 100, writesPerSecond := some 33, reads := 1,
        readsPerSecond := some 0, updates := 1, updatesPerSecond := some 0,
        deletes := 1, deletesPerSecond := some 0, duration := 12 }
    sessionId := "test_0"
    writtenIds := List.range' 1 100
    readIds := [1]
    updatedIds := [1]
    deletedIds := [100]
    remainingIds := List.range' 1 99
    deleteDuration := 3
    finalState := { cache := [], comments := [], nextCacheId := 1, nextCommentId := 101 } }

/-- A host with 2 logical CPUs and a one-minute load average of 8: the
CPU usage figure becomes 400 percent. -/
def osHigh : OsState :=
  { cpus := ["m", "m"], platformName := "linux", arch := "x64",
    release := "6.1.0", totalmem := 4, freemem := 2, loadavg1 := 8 }

/-- A host with plausible metrics: 1 CPU, load 0.5, 3 of 4 bytes used. -/
def osW : OsState :=
  { cpus := ["m"], platformName := "linux", arch := "x64",
    release := "6.1.0", totalmem := 4, freemem := 1, loadavg1 := 1 / 2 }

/-! Helper lemmas about the write phase. -/

theorem writeChunk_count (env : RunEnv) (sid : String) (ts : ℤ) :
    ∀ (j : ℕ) (st : DBState) (w : ℕ) (recs : List ℕ),
      (writeChunk env sid ts j st w recs).2.1 = w + j := by
  intro j
  induction j with
  | zero => intro st w recs; simp [writeChunk]
  | succ j ih =>
      intro st w recs
      rw [writeChunk, ih]
      omega

theorem writeChunk_ids (env : RunEnv) (sid : String) (ts : ℤ) :
    ∀ (j : ℕ) (st : DBState) (w : ℕ) (recs : List ℕ),
      (writeChunk env sid ts j st w recs).2.2 =
        recs ++ List.range' st.nextCommentId j := by
  intro j
  induction j with
  | zero => intro st w recs; simp [writeChunk]
  | succ j ih =>
      intro st w recs
      rw [writeChunk, ih]
      simp [insertComment, List.range'_succ]

theorem writeChunk_nextId (env : RunEnv) (sid : String) (ts : ℤ) :
    ∀ (j : ℕ) (st : DBState) (w : ℕ) (recs : List ℕ),
      (writeChunk env sid ts j st w recs).1.nextCommentId =
        st.nextCommentId + j := by
  intro j
  induction j with
  | zero => intro st w recs; simp [writeChunk]
  | succ j ih =>
      intro st w recs
      rw [writeChunk, ih]
      simp [insertComment]
      omega

theorem writeLoop_spec (env : RunEnv) (sid : String) (ts : ℤ) :
    ∀ (fuel k : ℕ) (st : DBState) (w : ℕ) (recs : List ℕ)
      (st2 : DBState) (w2 : ℕ) (recs2 : List ℕ) (t : ℚ),
      writeLoop env sid ts fuel k st w recs = some (st2, w2, recs2, t) →
      ∃ m : ℕ, w2 = w + chunkSize * m ∧
        recs2 = recs ++ List.range' st.nextCommentId (chunkSize * m) ∧
        st2.nextCommentId = st.nextCommentId + chunkSize * m ∧
        (env.writeElapsed k < env.maxDuration → 1 ≤ m) := by
  intro fuel
  induction fuel with
  | zero => intro k st w recs st2 w2 recs2 t h; exact absurd h (by simp [writeLoop])
  | succ fuel ih =>
      intro k st w recs st2 w2 recs2 t h
      rw [writeLoop] at h
      by_cases hc : env.writeElapsed k < env.maxDuration
      · rw [if_pos hc] at h
        obtain ⟨m, hm1, hm2, hm3, _⟩ :=
          ih (k + 1) _ _ _ st2 w2 recs2 t h
        refine ⟨m + 1, ?_, ?_, ?_, fun _ => by omega⟩
        · rw [hm1, writeChunk_count]
          ring
        · rw [hm2, writeChunk_ids, writeChunk_nextId]
          rw [List.append_assoc, List.range'_append_1]
          have : chunkSize * m + chunkSize = chunkSize * (m + 1) := by ring
          rw [this]
        · rw [hm3, writeChunk_nextId]
          ring
      · rw [if_neg hc] at h
        obtain ⟨rfl, rfl, rfl, rfl⟩ :
            st = st2 ∧ w = w2 ∧ recs = recs2 ∧ env.writeElapsed k = t := by
          simpa using h
        exact ⟨0, by simp, by simp, by simp, fun hcc => absurd hcc hc⟩

theorem writeLoop_stop (env : RunEnv) (sid : String) (ts : ℤ) (fuel k : ℕ)
    (st : DBState) (w : ℕ) (recs : List ℕ)
    (h : ¬ env.writeElapsed k < env.maxDuration) :
    writeLoop env sid ts (fuel + 1) k st w recs =
      some (st, w, recs, env.writeElapsed k) := by
  rw [writeLoop, if_neg h]

theorem readLoop_stop (env : RunEnv) (st : DBState) (recs : List ℕ)
    (fuel k : ℕ) (dur : ℚ) (reads : ℕ) (used : List ℕ)
    (h : ¬ dur < env.maxDuration) :
    readLoop env st recs (fuel + 1) k dur reads used =
      some (Except.ok (reads, dur, used)) := by
  rw [readLoop, if_neg h]

theorem updateLoop_stop (env : RunEnv) (recs : List ℕ) (fuel k : ℕ)
    (dur : ℚ) (updates : ℕ) (used : List ℕ) (st : DBState)
    (h : ¬ dur < env.maxDuration) :
    updateLoop env recs (fuel + 1) k dur updates used st =
      some (Except.ok (st, updates, dur, used)) := by
  rw [updateLoop, if_neg h]

theorem deleteLoop_stop (env : RunEnv) (fuel k : ℕ) (dur : ℚ)
    (deletes : ℕ) (used recs : List ℕ) (st : DBState)
    (h : ¬ dur < env.maxDuration) :
    deleteLoop env (fuel + 1) k dur deletes used recs st =
      some (st, deletes, dur, used, recs) := by
  rw [deleteLoop, if_neg h]

theorem jsIndex_mem (recs : List ℕ) (r : ℚ) (id : ℕ)
    (h : jsIndex recs r = some id) : id ∈ recs := by
  unfold jsIndex at h
  by_cases h0 : (0 : ℤ) ≤ ⌊r * (recs.length : ℚ)⌋
  · rw [if_pos h0] at h
    exact List.get?_mem h
  · rw [if_neg h0] at h
    exact absurd h (by simp)

theorem jsIndex_nil (r : ℚ) : jsIndex [] r = none := by
  unfold jsIndex
  simp

/-! Helper lemmas about the read, update and delete phases. -/

theorem readLoop_ids (env : RunEnv) (st : DBState) (recs : List ℕ) :
    ∀ (fuel k : ℕ) (dur : ℚ) (reads : ℕ) (used : List ℕ)
      (r2 : ℕ) (d2 : ℚ) (used2 : List ℕ),
      readLoop env st recs fuel k dur reads used =
        some (Except.ok (r2, d2, used2)) →
      ∀ id, id ∈ used2 → id ∈ recs ∨ id ∈ used := by
  intro fuel
  induction fuel with
  | zero =>
      intro k dur reads used r2 d2 used2 h
      exact absurd h (by simp [readLoop])
  | succ fuel ih =>
      intro k dur reads used r2 d2 used2 h
      rw [readLoop] at h
      by_cases hc : dur < env.maxDuration
      · rw [if_pos hc] at h
        cases hj : jsIndex recs (env.readRand k) with
        | none => rw [hj] at h; exact absurd h (by simp)
        | some id =>
            rw [hj] at h
            intro x hx
            rcases ih (k + 1) (env.readElapsed k) (reads + 1) (used ++ [id])
              r2 d2 used2 h x hx with hrec | hold
            · exact Or.inl hrec
            · rcases List.mem_append.mp hold with h1 | h2
              · exact Or.inr h1
              · have : x = id := by simpa using h2
                exact Or.inl (this ▸ jsIndex_mem recs (env.readRand k) id hj)
      · rw [if_neg hc] at h
        obtain ⟨rfl, rfl, rfl⟩ : reads = r2 ∧ dur = d2 ∧ used = used2 := by
          simpa using h
        exact fun id hid => Or.inr hid

theorem updateLoop_ids (env : RunEnv) (recs : List ℕ) :
    ∀ (fuel k : ℕ) (dur : ℚ) (updates : ℕ) (used : List ℕ) (st : DBState)
      (st2 : DBState) (u2 : ℕ) (d2 : ℚ) (used2 : List ℕ),
      updateLoop env recs fuel k dur updates used st =
        some (Except.ok (st2, u2, d2, used2)) →
      ∀ id, id ∈ used2 → id ∈ recs ∨ id ∈ used := by
  intro fuel
  induction fuel with
  | zero =>
      intro k dur updates used st st2 u2 d2 used2 h
      exact absurd h (by simp [updateLoop])
  | succ fuel ih =>
      intro k dur updates used st st2 u2 d2 used2 h
      rw [updateLoop] at h
      by_cases hc : dur < env.maxDuration
      · rw [if_pos hc] at h
        cases hj : jsIndex recs (env.updateRand k) with
        | none => rw [hj] at h; exact absurd h (by simp)
        | some id =>
            rw [hj] at h
            intro x hx
            rcases ih (k + 1) (env.updateElapsed k) (updates + 1) (used ++ [id])
              _ st2 u2 d2 used2 h x hx with hrec | hold
            · exact Or.inl hrec
            · rcases List.mem_append.mp hold with h1 | h2
              · exact Or.inr h1
              · have : x = id := by simpa using h2
                exact Or.inl (this ▸ jsIndex_mem recs (env.updateRand k) id hj)
      · rw [if_neg hc] at h
        obtain ⟨rfl, rfl, rfl, rfl⟩ :
            st = st2 ∧ updates = u2 ∧ dur = d2 ∧ used = used2 := by
          simpa using h
        exact fun id hid => Or.inr hid

theorem deleteLoop_spec (env : RunEnv) :
    ∀ (fuel k : ℕ) (dur : ℚ) (deletes : ℕ) (used recs : List ℕ)
      (st st2 : DBState) (dl2 : ℕ) (dur2 : ℚ) (used2 rem : List ℕ),
      deleteLoop env fuel k dur deletes used recs st =
        some (st2, dl2, dur2, used2, rem) →
      ∃ popped : List ℕ, used2 = used ++ popped ∧
        recs = rem ++ popped.reverse ∧
        (rem = [] ∨ ¬ dur2 < env.maxDuration) := by
  intro fuel
  induction fuel with
  | zero =>
      intro k dur deletes used recs st st2 dl2 dur2 used2 rem h
      exact absurd h (by simp [deleteLoop])
  | succ fuel ih =>
      intro k dur deletes used recs st st2 dl2 dur2 used2 rem h
      rw [deleteLoop] at h
      by_cases hc : dur < env.maxDuration
      · rw [if_pos hc] at h
        cases hl : recs.getLast? with
        | none =>
            rw [hl] at h
            obtain ⟨rfl, rfl, rfl, rfl, rfl⟩ :
                st = st2 ∧ deletes = dl2 ∧ dur = dur2 ∧ used = used2 ∧
                  recs = rem := by
              simpa using h
            refine ⟨[], by simp, by simp, Or.inl ?_⟩
            exact List.getLast?_eq_none_iff.mp hl
        | some id =>
            rw [hl] at h
            obtain ⟨popped, hp1, hp2, hp3⟩ :=
              ih (k + 1) (env.deleteElapsed k) (deletes + 1) (used ++ [id])
                recs.dropLast _ st2 dl2 dur2 used2 rem h
            refine ⟨id :: popped, ?_, ?_, hp3⟩
            · rw [hp1]; simp
            · have hdl : recs.dropLast ++ [id] = recs :=
                List.dropLast_append_getLast? id hl
              rw [List.reverse_cons, ← List.append_assoc, ← hp2, hdl]
      · rw [if_neg hc] at h
        obtain ⟨rfl, rfl, rfl, rfl, rfl⟩ :
            st = st2 ∧ deletes = dl2 ∧ dur = dur2 ∧ used = used2 ∧
              recs = rem := by
          simpa using h
        exact ⟨[], by simp, by simp, Or.inr hc⟩

theorem filter_session_nil (l : List CommentRow) (sid : String) :
    (l.filter (fun r => r.test_session != sid)).filter
      (fun r => r.test_session == sid) = [] := by
  rw [List.filter_filter]
  apply List.filter_eq_nil_iff.mpr
  intro a _
  by_cases hr : a.test_session = sid <;> simp [hr]

/-- Destructuring a completed `runTest` call into its phase equations and
the explicit shape of the returned trace. -/
theorem runTest_ok_elim (fuel : ℕ) (env : RunEnv) (st : DBState) (tr : RunTrace)
    (h : runTest fuel env st = some (Except.ok tr)) :
    ∃ (st1 : DBState) (writes : ℕ) (recs : List ℕ) (writeTime : ℚ)
      (reads : ℕ) (readDur : ℚ) (readIds : List ℕ)
      (st2 : DBState) (updates : ℕ) (updateDur : ℚ) (updatedIds : List ℕ)
      (st3 : DBState) (deletes : ℕ) (deleteDur : ℚ) (deletedIds remaining : List ℕ),
      writeLoop env (sessionIdOf env) (currentTimestampOf env) fuel 0 st 0 [] =
        some (st1, writes, recs, writeTime) ∧
      readLoop env st1 recs fuel 0 0 0 [] =
        some (Except.ok (reads, readDur, readIds)) ∧
      updateLoop env recs fuel 0 0 0 [] st1 =
        some (Except.ok (st2, updates, updateDur, updatedIds)) ∧
      deleteLoop env fuel 0 0 0 [] recs st2 =
        some (st3, deletes, deleteDur, deletedIds, remaining) ∧
      tr = { result :=
               { dbSizeInMb := jsRound2 ((env.dbFileSizeBytes : ℚ) / (1024 * 1024))
                 totalOperations := writes + reads + updates + deletes
                 operationsPerSecond :=
                   jsRoundDiv ((writes + reads + updates + deletes : ℕ) : ℚ)
                     (env.maxDuration * 4)
                 writes := writes
                 writesPerSecond := jsRoundDiv (writes : ℚ) writeTime
                 reads := reads
                 readsPerSecond := jsRoundDiv (reads : ℚ) readDur
                 updates := updates
                 updatesPerSecond := jsRoundDiv (updates : ℚ) updateDur
                 deletes := deletes
                 deletesPerSecond := jsRoundDiv (deletes : ℚ) deleteDur
                 duration := jsRound2 env.finalElapsed }
             sessionId := sessionIdOf env
             writtenIds := recs
             readIds := readIds
             updatedIds := updatedIds
             deletedIds := deletedIds
             remainingIds := remaining
             deleteDuration := deleteDur
             finalState := cleanupComments st3 (sessionIdOf env) } := by
  simp only [runTest] at h
  rcases hwl : writeLoop env (sessionIdOf env) (currentTimestampOf env)
      fuel 0 st 0 [] with _ | ⟨st1, writes, recs, writeTime⟩
  · rw [hwl] at h; simp at h
  · rw [hwl] at h
    dsimp only at h
    rcases hrl : readLoop env st1 recs fuel 0 0 0 [] with _ | rres
    · rw [hrl] at h; simp at h
    · rw [hrl] at h
      rcases rres with e | ⟨reads, readDur, readIds⟩
      · simp at h
      · dsimp only at h
        rcases hul : updateLoop env recs fuel 0 0 0 [] st1 with _ | ures
        · rw [hul] at h; simp at h
        · rw [hul] at h
          rcases ures with e | ⟨st2, updates, updateDur, updatedIds⟩
          · simp at h
          · dsimp only at h
            rcases hdl : deleteLoop env fuel 0 0 0 [] recs st2 with
              _ | ⟨st3, deletes, deleteDur, deletedIds, remaining⟩
            · rw [hdl] at h; simp at h
            · rw [hdl] at h
              simp only [Option.some.injEq, Except.ok.injEq] at h
              exact ⟨st1, writes, recs, writeTime, reads, readDur, readIds,
                st2, updates, updateDur, updatedIds, st3, deletes, deleteDur,
                deletedIds, remaining, rfl, hrl, hul, hdl, h.symm⟩

/-- Destructuring a `getCachedTest` call that returned normally: either the
cache-hit path was taken, or the refresh path ran the workload and replaced
the cache contents. -/
theorem getCachedTest_ok_elim (env : CacheEnv) (p : ProcState)
    (w : WorkloadResult) (p2 : ProcState)
    (h : getCachedTest env p = some (Except.ok (w, p2))) :
    (∃ row, selectNewestCache p.store.cache = some row ∧
       env.nowCheck - (row.timestamp : ℚ) < maxCacheSeconds ∧
       env.parse row.result = some w ∧ p2 = initDatabase p) ∨
    (∃ tr, runTest env.fuel env.run p.store = some (Except.ok tr) ∧
       w = tr.result ∧
       p2 = { dbHandle := some p.openCount, openCount := p.openCount + 1,
              store := insertCacheRow { tr.finalState with cache := [] }
                         (env.stringify tr.result) ⌊env.nowStore⌋ }) := by
  simp only [getCachedTest] at h
  rcases hsel : selectNewestCache (initDatabase p).store.cache with _ | row
  · rw [hsel] at h
    dsimp only at h
    rcases hrt : runTest env.fuel env.run (initDatabase p).store with _ | res
    · rw [hrt] at h; simp at h
    · rw [hrt] at h
      rcases res with e | tr
      · simp at h
      · dsimp only at h
        simp only [Option.some.injEq, Except.ok.injEq, Prod.mk.injEq] at h
        obtain ⟨rfl, rfl⟩ := h
        refine Or.inr ⟨tr, hrt, rfl, ?_⟩
        simp [initDatabase]
  · rw [hsel] at h
    dsimp only at h
    by_cases hfresh : env.nowCheck - (row.timestamp : ℚ) < maxCacheSeconds
    · rw [if_pos hfresh] at h
      rcases hp : env.parse row.result with _ | v
      · rw [hp] at h; simp at h
      · rw [hp] at h
        simp only [Option.some.injEq, Except.ok.injEq, Prod.mk.injEq] at h
        obtain ⟨rfl, rfl⟩ := h
        exact Or.inl ⟨row, hsel, hfresh, hp, rfl⟩
    · rw [if_neg hfresh] at h
      rcases hrt : runTest env.fuel env.run (initDatabase p).store with _ | res
      · rw [hrt] at h; simp at h
      · rw [hrt] at h
        rcases res with e | tr
        · simp at h
        · dsimp only at h
          simp only [Option.some.injEq, Except.ok.injEq, Prod.mk.injEq] at h
          obtain ⟨rfl, rfl⟩ := h
          refine Or.inr ⟨tr, hrt, rfl, ?_⟩
          simp [initDatabase]

/-- The cache-hit path of `getCachedTest`: fresh newest row and successful
parse give back the deserialized payload with the store untouched. -/
theorem getCachedTest_hit (env : CacheEnv) (p : ProcState) (row : CacheRow)
    (v : WorkloadResult)
    (hsel : selectNewestCache p.store.cache = some row)
    (hfresh : env.nowCheck - (row.timestamp : ℚ) < maxCacheSeconds)
    (hparse : env.parse row.result = some v) :
    getCachedTest env p = some (Except.ok (v, initDatabase p)) := by
  have hsel2 : selectNewestCache (initDatabase p).store.cache = some row := hsel
  simp only [getCachedTest]
  rw [hsel2]
  dsimp only
  rw [if_pos hfresh, hparse]

/-- The refresh path of `getCachedTest` on a stale newest row: the
workload runs, every cache row is deleted, and exactly one new row with
the serialized result and current timestamp is inserted. -/
theorem getCachedTest_refresh (env : CacheEnv) (p : ProcState) (row : CacheRow)
    (tr : RunTrace)
    (hsel : selectNewestCache p.store.cache = some row)
    (hstale : ¬ env.nowCheck - (row.timestamp : ℚ) < maxCacheSeconds)
    (hrun : runTest env.fuel env.run p.store = some (Except.ok tr)) :
    getCachedTest env p = some (Except.ok (tr.result,
      { dbHandle := some p.openCount
        openCount := p.openCount + 1
        store :=
          { cache := [{ id := tr.finalState.nextCacheId
                        result := env.stringify tr.result
                        timestamp := ⌊env.nowStore⌋ }]
            comments := tr.finalState.comments
            nextCacheId := tr.finalState.nextCacheId + 1
            nextCommentId := tr.finalState.nextCommentId } })) := by
  have hsel2 : selectNewestCache (initDatabase p).store.cache = some row := hsel
  have hrun2 : runTest env.fuel env.run (initDatabase p).store =
      some (Except.ok tr) := hrun
  simp only [getCachedTest]
  rw [hsel2]
  dsimp only
  rw [if_neg hstale, hrun2]
  dsimp only
  simp [initDatabase, insertCacheRow]

/-! Claim theorems. -/

/-- Claim C1, counterexample.  The claim states that opening the storage
handle is idempotent: when the handle is already open, a `getCachedTest`
call (which invokes `initDatabase`) reuses the existing handle and never
implicitly reopens.  In the model, `procHit` holds an already-open handle
(`some 0`) and a fresh cached row, yet the completed cache-hit call
returns with a different handle (`some 1`) and a second connection
opened, because `initDatabase` unconditionally runs
`db = new Database(databaseFile)`. -/
theorem C1_counterexample :
    getCachedTest envHit procHit = some (Except.ok (wr0, procHitAfter)) ∧
    procHitAfter.dbHandle ≠ procHit.dbHandle ∧
    procHitAfter.openCount = 2 := by
  refine ⟨?_, ?_, rfl⟩
  · with_unfolding_all decide
  · decide

/-- Claim C1, amended: `initDatabase` is not guarded, so every completed
`getCachedTest` call opens exactly one fresh connection and reassigns the
module-level handle; the previously open handle is never reused. -/
theorem C1_amended (env : CacheEnv) (p : ProcState) (w : WorkloadResult)
    (p2 : ProcState) (h : getCachedTest env p = some (Except.ok (w, p2))) :
    p2.openCount = p.openCount + 1 ∧ p2.dbHandle = some p.openCount := by
  rcases getCachedTest_ok_elim env p w p2 h with ⟨row, _, _, _, rfl⟩ | ⟨tr, _, _, rfl⟩
  · exact ⟨rfl, rfl⟩
  · exact ⟨rfl, rfl⟩

/-- Claim C1, witness for the amended theorem at the concrete cache-hit
call of `C1_counterexample`. -/
theorem C1_witness :
    procHitAfter.openCount = procHit.openCount + 1 ∧
    procHitAfter.dbHandle = some procHit.openCount :=
  C1_amended envHit procHit wr0 procHitAfter (by with_unfolding_all decide)

/-- Claim C3: on every `getCachedTest` call, if a most-recent cache row
exists and its age `now - stored.timestamp` is strictly below the
300-second window, the stored payload is returned deserialized and
unchanged, with no workload run (the returned process state is exactly the
reopened-handle state, the store untouched); otherwise the workload runs,
all cache rows are deleted and exactly one row holding the serialized new
result and the current timestamp is inserted, and the new result is
returned. -/
theorem C3_freshness (env : CacheEnv) (p : ProcState) :
    (∀ row v, selectNewestCache p.store.cache = some row →
        env.nowCheck - (row.timestamp : ℚ) < maxCacheSeconds →
        env.parse row.result = some v →
        getCachedTest env p = some (Except.ok (v, initDatabase p))) ∧
    (∀ row tr, selectNewestCache p.store.cache = some row →
        ¬ env.nowCheck - (row.timestamp : ℚ) < maxCacheSeconds →
        runTest env.fuel env.run p.store = some (Except.ok tr) →
        getCachedTest env p = some (Except.ok (tr.result,
          { dbHandle := some p.openCount
            openCount := p.openCount + 1
            store :=
              { cache := [{ id := tr.finalState.nextCacheId
                            result := env.stringify tr.result
                            timestamp := ⌊env.nowStore⌋ }]
                comments := tr.finalState.comments
                nextCacheId := tr.finalState.nextCacheId + 1
                nextCommentId := tr.finalState.nextCommentId } }))) := by
  constructor
  · intro row v hsel hfresh hp
    exact getCachedTest_hit env p row v hsel hfresh hp
  · intro row tr hsel hstale hrun
    exact getCachedTest_refresh env p row tr hsel hstale hrun

/-- Claim C3, witness: the concrete hit call at age 299 (one second below
the window) returns the deserialized stored payload, and the concrete miss
call at age 301 (one second above) runs the workload and rewrites the
cache. -/
theorem C3_witness :
    getCachedTest envHit procHit = some (Except.ok (wr0, initDatabase procHit)) ∧
    getCachedTest envMiss procHit = some (Except.ok (trMiss.result,
      { dbHandle := some procHit.openCount
        openCount := procHit.openCount + 1
        store :=
          { cache := [{ id := trMiss.finalState.nextCacheId
                        result := envMiss.stringify trMiss.result
                        timestamp := ⌊envMiss.nowStore⌋ }]
            comments := trMiss.finalState.comments
            nextCacheId := trMiss.finalState.nextCacheId + 1
            nextCommentId := trMiss.finalState.nextCommentId } })) := by
  constructor
  · exact (C3_freshness envHit procHit).1 cacheRowFresh wr0
      (by with_unfolding_all decide)
      (by rw [maxCacheSeconds]; norm_num [cacheRowFresh, envHit])
      rfl
  · exact (C3_freshness envMiss procHit).2 cacheRowFresh trMiss
      (by with_unfolding_all decide)
      (by rw [maxCacheSeconds]; norm_num [cacheRowFresh, envMiss, envHit])
      (by with_unfolding_all decide)

/-- Claim C4: a completed `getCachedTest` call leaves at most one row in
the `test_results_cache` table: the refresh path deletes every existing
row before inserting exactly one, and the hit path leaves the table
untouched, so the at-most-one-row invariant is preserved by every call
(from the empty initial schema it therefore always holds). -/
theorem C4_single_row (env : CacheEnv) (p : ProcState) (w : WorkloadResult)
    (p2 : ProcState) (h : getCachedTest env p = some (Except.ok (w, p2)))
    (hpre : p.store.cache.length ≤ 1) :
    p2.store.cache.length ≤ 1 := by
  rcases getCachedTest_ok_elim env p w p2 h with ⟨row, _, _, _, rfl⟩ | ⟨tr, _, _, rfl⟩
  · exact hpre
  · simp [insertCacheRow]

/-- Claim C4, witness at the concrete cache-miss call: the resulting store
holds exactly one cache row. -/
theorem C4_witness : procMissAfter.store.cache.length ≤ 1 :=
  C4_single_row envMiss procHit wr0 procMissAfter
    (by with_unfolding_all decide) (by decide)

/-- Claim C9: a `getCachedTest` call that takes the cache-hit path
performs no insert, update or delete: the returned value is exactly the
deserialization of the stored payload and the database file (both tables)
is unchanged. -/
theorem C9_hit_frame (env : CacheEnv) (p : ProcState) (row : CacheRow)
    (v : WorkloadResult)
    (hsel : selectNewestCache p.store.cache = some row)
    (hfresh : env.nowCheck - (row.timestamp : ℚ) < maxCacheSeconds)
    (hparse : env.parse row.result = some v) :
    getCachedTest env p = some (Except.ok (v, initDatabase p)) ∧
    (initDatabase p).store = p.store := by
  refine ⟨getCachedTest_hit env p row v hsel hfresh hparse, rfl⟩

/-- Claim C9, witness at the concrete cache-hit call. -/
theorem C9_witness :
    getCachedTest envHit procHit = some (Except.ok (wr0, initDatabase procHit)) ∧
    (initDatabase procHit).store = procHit.store :=
  C9_hit_frame envHit procHit cacheRowFresh wr0
    (by with_unfolding_all decide)
    (by rw [maxCacheSeconds]; norm_num [cacheRowFresh, envHit])
    rfl

/-- `Math.round 0 = 0`. -/
theorem jsRound_zero : jsRound 0 = 0 := by
  unfold jsRound
  rw [zero_add]
  exact Int.floor_eq_iff.mpr (by norm_num)

/-- Claim C2, counterexample.  The claim states that whenever the write
phase produces zero identifiers, the read, update and delete phases
terminate immediately without indexing out of range.  In the model run
below the duration budget is the real constant (3 seconds) and the write
loop observes 3 elapsed seconds already at its first check (a stalled
process), so it completes with zero identifiers; the read phase then
immediately indexes the empty identifier list out of range
(`newRecords[0]` is `undefined`) and the run aborts with the
better-sqlite3 binding error instead of terminating cleanly — only the
delete loop checks `newRecords.length > 0`. -/
theorem C2_counterexample :
    writeLoop envStall (sessionIdOf envStall) (currentTimestampOf envStall) 2 0
      freshDB 0 [] = some (freshDB, 0, [], 3) ∧
    envStall.maxDuration = maxSecondsPerTest ∧
    runTest 2 envStall freshDB = some (Except.error readBindErr) := by
  refine ⟨?_, rfl, ?_⟩ <;> with_unfolding_all decide

/-- Claim C2, amended: when the write phase produces zero identifiers
because the duration budget is zero, the read, update and delete phases do
terminate immediately with zero operations, every per-phase rate whose
count is zero is reported as the explicit non-finite marker (`NaN`,
modelled `none`) or as zero, and no division fault is raised; but when the
budget is positive and the write phase still produced zero identifiers,
the read phase instead throws an invalid-binding error on its first
iteration. -/
theorem C2_amended (env : RunEnv) (st : DBState) (fuel : ℕ)
    (h0 : 0 ≤ env.writeElapsed 0) :
    (∀ tr, env.maxDuration = 0 → runTest fuel env st = some (Except.ok tr) →
        tr.result.writes = 0 ∧ tr.result.reads = 0 ∧ tr.result.updates = 0 ∧
        tr.result.deletes = 0 ∧
        (tr.result.writesPerSecond = none ∨ tr.result.writesPerSecond = some 0) ∧
        tr.result.readsPerSecond = none ∧ tr.result.updatesPerSecond = none ∧
        tr.result.deletesPerSecond = none ∧
        tr.result.operationsPerSecond = none) ∧
    (env.maxDuration = 0 → 1 ≤ fuel → (runTest fuel env st).isSome = true) ∧
    (∀ st1 wt, 0 < env.maxDuration →
        writeLoop env (sessionIdOf env) (currentTimestampOf env) fuel 0 st 0 [] =
          some (st1, 0, [], wt) →
        runTest fuel env st = some (Except.error readBindErr)) := by
  refine ⟨?_, ?_, ?_⟩
  · intro tr hz h
    obtain ⟨st1, writes, recs, writeTime, reads, readDur, readIds, st2, updates,
      updateDur, updatedIds, st3, deletes, deleteDur, deletedIds, remaining,
      hwl, hrl, hul, hdl, htr⟩ := runTest_ok_elim fuel env st tr h
    have hnw : ¬ env.writeElapsed 0 < env.maxDuration := by
      rw [hz]; exact not_lt.mpr h0
    have hn0 : ¬ (0 : ℚ) < env.maxDuration := by
      rw [hz]; exact lt_irrefl 0
    cases fuel with
    | zero => exact absurd hwl (by simp [writeLoop])
    | succ f =>
        rw [writeLoop_stop env _ _ f 0 st 0 [] hnw] at hwl
        simp only [Option.some.injEq, Prod.mk.injEq] at hwl
        obtain ⟨e1, e2, e3, e4⟩ := hwl
        subst e1; subst e2; subst e3; subst e4
        rw [readLoop_stop env st ([] : List ℕ) f 0 0 0 [] hn0] at hrl
        simp only [Option.some.injEq, Except.ok.injEq, Prod.mk.injEq] at hrl
        obtain ⟨e5, e6, e7⟩ := hrl
        subst e5; subst e6; subst e7
        rw [updateLoop_stop env ([] : List ℕ) f 0 0 0 [] st hn0] at hul
        simp only [Option.some.injEq, Except.ok.injEq, Prod.mk.injEq] at hul
        obtain ⟨e8, e9, e10, e11⟩ := hul
        subst e8; subst e9; subst e10; subst e11
        rw [deleteLoop_stop env f 0 0 0 [] ([] : List ℕ) st hn0] at hdl
        simp only [Option.some.injEq, Prod.mk.injEq] at hdl
        obtain ⟨e12, e13, e14, e15, e16⟩ := hdl
        subst e12; subst e13; subst e14; subst e15; subst e16
        subst htr
        refine ⟨rfl, rfl, rfl, rfl, ?_, ?_, ?_, ?_, ?_⟩
        · by_cases hwt : env.writeElapsed 0 = 0
          · left; simp [jsRoundDiv, hwt]
          · right; simp [jsRoundDiv, hwt, jsRound_zero]
        · simp [jsRoundDiv]
        · simp [jsRoundDiv]
        · simp [jsRoundDiv]
        · simp [jsRoundDiv, hz]
  · intro hz hfuel
    have hnw : ¬ env.writeElapsed 0 < env.maxDuration := by
      rw [hz]; exact not_lt.mpr h0
    have hn0 : ¬ (0 : ℚ) < env.maxDuration := by
      rw [hz]; exact lt_irrefl 0
    cases fuel with
    | zero => omega
    | succ f =>
        simp only [runTest]
        rw [writeLoop_stop env _ _ f 0 st 0 [] hnw]
        dsimp only
        rw [readLoop_stop env st ([] : List ℕ) f 0 0 0 [] hn0]
        dsimp only
        rw [updateLoop_stop env ([] : List ℕ) f 0 0 0 [] st hn0]
        dsimp only
        rw [deleteLoop_stop env f 0 0 0 [] ([] : List ℕ) st hn0]
        rfl
  · intro st1 wt hpos hwl
    cases fuel with
    | zero => exact absurd hwl (by simp [writeLoop])
    | succ f =>
        simp only [runTest]
        rw [hwl]
        dsimp only
        rw [readLoop, if_pos hpos, jsIndex_nil]

/-- Claim C2, witness: the zero-budget run terminates immediately with
zero counts and non-finite rate markers; the stalled positive-budget run
with zero identifiers aborts with the binding error. -/
theorem C2_witness :
    (trZero.result.writes = 0 ∧ trZero.result.reads = 0 ∧
      trZero.result.updates = 0 ∧ trZero.result.deletes = 0 ∧
      (trZero.result.writesPerSecond = none ∨
        trZero.result.writesPerSecond = some 0) ∧
      trZero.result.readsPerSecond = none ∧
      trZero.result.updatesPerSecond = none ∧
      trZero.result.deletesPerSecond = none ∧
      trZero.result.operationsPerSecond = none) ∧
    (runTest 1 envZero freshDB).isSome = true ∧
    runTest 2 envStall freshDB = some (Except.error readBindErr) := by
  refine ⟨?_, ?_, ?_⟩
  · exact (C2_amended envZero freshDB 1 (by with_unfolding_all decide)).1 trZero
      rfl (by with_unfolding_all decide)
  · exact (C2_amended envZero freshDB 1 (by with_unfolding_all decide)).2.1
      rfl (by omega)
  · exact (C2_amended envStall freshDB 2 (by with_unfolding_all decide)).2.2
      freshDB 3 (by with_unfolding_all decide) (by with_unfolding_all decide)

/-- Claim C10, counterexample.  The claim states that whenever the
duration budget is positive, the write phase ends with `writes` a positive
multiple of the batch size.  Here the budget is the real positive constant
(3 seconds), the write loop completes (it observes 3 elapsed seconds at
its first check, as for a stalled process), and `writes = 0`, which is not
positive. -/
theorem C10_counterexample :
    (0 : ℚ) < envStall.maxDuration ∧
    writeLoop envStall (sessionIdOf envStall) (currentTimestampOf envStall) 2 0
      freshDB 0 [] = some (freshDB, 0, [], 3) := by
  constructor <;> with_unfolding_all decide

/-- Claim C10, amended: at the end of the write phase the length of the
known-identifiers collection equals the `writes` counter and `writes` is a
multiple of the fixed batch size 100 (each loop iteration inserts exactly
one full batch inside a single transaction); `writes` is moreover positive
whenever the first loop check observes an elapsed time below the duration
budget — in particular whenever the budget is positive and no time has
passed before the first check. -/
theorem C10_amended (env : RunEnv) (sid : String) (ts : ℤ) (fuel : ℕ)
    (st st2 : DBState) (w2 : ℕ) (recs2 : List ℕ) (t : ℚ)
    (h : writeLoop env sid ts fuel 0 st 0 [] = some (st2, w2, recs2, t)) :
    recs2.length = w2 ∧ w2 % chunkSize = 0 ∧
    (env.writeElapsed 0 < env.maxDuration → 0 < w2) := by
  obtain ⟨m, hm1, hm2, _, hm4⟩ :=
    writeLoop_spec env sid ts fuel 0 st 0 [] st2 w2 recs2 t h
  refine ⟨?_, ?_, ?_⟩
  · rw [hm2, hm1]
    simp
  · rw [hm1]
    simp [Nat.mul_mod_right]
  · intro hc
    have hm := hm4 hc
    rw [hm1]
    simp only [chunkSize]
    omega

/-- Claim C10, witness for the amended theorem at the one-batch run. -/
theorem C10_witness :
    (List.range' 1 100).length = 100 ∧ (100 : ℕ) % chunkSize = 0 ∧
    0 < (100 : ℕ) := by
  have happ := C10_amended envBig "test_0" 0 2 freshDB stWrite 100
    (List.range' 1 100) 3 (by with_unfolding_all decide)
  exact ⟨happ.1, happ.2.1, happ.2.2 (by with_unfolding_all decide)⟩

/-- The concrete one-batch run: 100 writes, 1 read, 1 update, 1 delete. -/
theorem runBig_eval : runTest 2 envBig freshDB = some (Except.ok trBig) := by
  with_unfolding_all decide

/-- Claim C5: in a completed run whose write phase produced at least one
record, every identifier used by the read, update and delete phases was
appended to the known-identifiers collection by that same run's write
phase, the delete phase deletes each identifier at most once, and the
delete phase ends because the duration budget elapsed or because no known
identifiers remain. -/
theorem C5_identifier_provenance (fuel : ℕ) (env : RunEnv) (st : DBState)
    (tr : RunTrace) (h : runTest fuel env st = some (Except.ok tr))
    (hw : 1 ≤ tr.result.writes) :
    tr.readIds ⊆ tr.writtenIds ∧ tr.updatedIds ⊆ tr.writtenIds ∧
    tr.deletedIds ⊆ tr.writtenIds ∧ tr.deletedIds.Nodup ∧
    (tr.remainingIds = [] ∨ ¬ tr.deleteDuration < env.maxDuration) := by
  obtain ⟨st1, writes, recs, writeTime, reads, readDur, readIds, st2, updates,
    updateDur, updatedIds, st3, deletes, deleteDur, deletedIds, remaining,
    hwl, hrl, hul, hdl, htr⟩ := runTest_ok_elim fuel env st tr h
  subst htr
  dsimp only
  obtain ⟨m, _, hm2, _, _⟩ :=
    writeLoop_spec env _ _ fuel 0 st 0 [] st1 writes recs writeTime hwl
  have hnodup : recs.Nodup := by
    rw [hm2]
    simpa using List.nodup_range' st.nextCommentId (chunkSize * m)
  obtain ⟨popped, hp1, hp2, hp3⟩ := deleteLoop_spec env fuel 0 0 0 [] recs st2
    st3 deletes deleteDur deletedIds remaining hdl
  have hpop : deletedIds = popped := by simpa using hp1
  subst hpop
  refine ⟨?_, ?_, ?_, ?_, hp3⟩
  · intro x hx
    rcases readLoop_ids env st1 recs fuel 0 0 0 [] reads readDur readIds hrl
      x hx with hin | hin
    · exact hin
    · simp at hin
  · intro x hx
    rcases updateLoop_ids env recs fuel 0 0 0 [] st1 st2 updates updateDur
      updatedIds hul x hx with hin | hin
    · exact hin
    · simp at hin
  · intro x hx
    rw [hp2]
    exact List.mem_append_right _ (List.mem_reverse.mpr hx)
  · have : (remaining ++ deletedIds.reverse).Nodup := hp2 ▸ hnodup
    exact List.nodup_reverse.mp (List.Nodup.of_append_right this)

/-- Claim C5, witness at the one-batch run. -/
theorem C5_witness :
    trBig.readIds ⊆ trBig.writtenIds ∧ trBig.updatedIds ⊆ trBig.writtenIds ∧
    trBig.deletedIds ⊆ trBig.writtenIds ∧ trBig.deletedIds.Nodup ∧
    (trBig.remainingIds = [] ∨ ¬ trBig.deleteDuration < envBig.maxDuration) :=
  C5_identifier_provenance 2 envBig freshDB trBig runBig_eval
    (by with_unfolding_all decide)

/-- Claim C6: after the cleanup step of a completed run, zero rows of the
comments table carry that run's session tag. -/
theorem C6_cleanup (fuel : ℕ) (env : RunEnv) (st : DBState) (tr : RunTrace)
    (h : runTest fuel env st = some (Except.ok tr)) :
    tr.finalState.comments.filter
      (fun r => r.test_session == tr.sessionId) = [] := by
  obtain ⟨st1, writes, recs, writeTime, reads, readDur, readIds, st2, updates,
    updateDur, updatedIds, st3, deletes, deleteDur, deletedIds, remaining,
    hwl, hrl, hul, hdl, htr⟩ := runTest_ok_elim fuel env st tr h
  subst htr
  dsimp only
  simp only [cleanupComments]
  exact filter_session_nil st3.comments (sessionIdOf env)

/-- Claim C6, witness at the one-batch run. -/
theorem C6_witness :
    trBig.finalState.comments.filter
      (fun r => r.test_session == trBig.sessionId) = [] :=
  C6_cleanup 2 envBig freshDB trBig runBig_eval

/-- Claim C7: in every completed run, `totalOperations` is the sum of the
four phase counters and `operationsPerSecond` is `totalOperations`
divided by the duration budget times 4 phases, rounded to the nearest
integer (the division marker `none` can only occur for a zero budget). -/
theorem C7_aggregate (fuel : ℕ) (env : RunEnv) (st : DBState) (tr : RunTrace)
    (h : runTest fuel env st = some (Except.ok tr)) :
    tr.result.totalOperations =
      tr.result.writes + tr.result.reads + tr.result.updates +
        tr.result.deletes ∧
    tr.result.operationsPerSecond =
      jsRoundDiv (tr.result.totalOperations : ℚ) (env.maxDuration * 4) ∧
    (env.maxDuration ≠ 0 →
      tr.result.operationsPerSecond =
        some (jsRound ((tr.result.totalOperations : ℚ) /
          (env.maxDuration * 4)))) := by
  obtain ⟨st1, writes, recs, writeTime, reads, readDur, readIds, st2, updates,
    updateDur, updatedIds, st3, deletes, deleteDur, deletedIds, remaining,
    hwl, hrl, hul, hdl, htr⟩ := runTest_ok_elim fuel env st tr h
  subst htr
  refine ⟨rfl, rfl, ?_⟩
  intro hmd
  dsimp only
  rw [jsRoundDiv, if_neg (mul_ne_zero hmd (by norm_num))]

/-- Claim C7, witness at the one-batch run: 103 total operations and
`round(103 / 12) = 9` operations per second. -/
theorem C7_witness :
    trBig.result.totalOperations =
      trBig.result.writes + trBig.result.reads + trBig.result.updates +
        trBig.result.deletes ∧
    trBig.result.operationsPerSecond =
      jsRoundDiv (trBig.result.totalOperations : ℚ) (envBig.maxDuration * 4) ∧
    trBig.result.operationsPerSecond =
      some (jsRound ((trBig.result.totalOperations : ℚ) /
        (envBig.maxDuration * 4))) := by
  have happ := C7_aggregate 2 envBig freshDB trBig runBig_eval
  exact ⟨happ.1, happ.2.1, happ.2.2 (by with_unfolding_all decide)⟩

/-- `Math.round` of a nonnegative value is nonnegative. -/
theorem jsRound_nonneg (x : ℚ) (hx : 0 ≤ x) : 0 ≤ jsRound x := by
  unfold jsRound
  rw [Int.le_floor]
  push_cast
  linarith

/-- `Math.round` of a value bounded by an integer is bounded by it. -/
theorem jsRound_le (x : ℚ) (b : ℤ) (hx : x ≤ (b : ℚ)) : jsRound x ≤ b := by
  unfold jsRound
  have hlt : ⌊x + 1 / 2⌋ < b + 1 := by
    rw [Int.floor_lt]
    push_cast
    linarith
  omega

/-- A value of the form `(k : ℚ) / 10` has one decimal place. -/
theorem one_decimal (k : ℤ) : ((10 : ℚ) * ((k : ℚ) / 10)).den = 1 := by
  have h : (10 : ℚ) * ((k : ℚ) / 10) = (k : ℚ) := by
    field_simp
  rw [h]
  exact Rat.den_intCast k

/-- Claim C8, counterexample.  The claim states the CPU-usage percentage
lies within `0 ≤ value ≤ 100`.  On a host with 2 logical CPUs and a
one-minute load average of 8 (an overloaded but perfectly possible
state), the reported CPU usage is 400, because the code computes
`loadavg[0] / cpus.length` without clamping. -/
theorem C8_counterexample :
    (getServerSpecs osHigh).cpuUsagePct = some 400 ∧ ¬ ((400 : ℚ) ≤ 100) := by
  constructor <;> with_unfolding_all decide

/-- Claim C8, amended: both usage figures are percentages with one decimal
place; the memory-usage percentage lies within `0 ≤ value ≤ 100` (when
free memory does not exceed total memory), while the CPU-usage percentage
is only guaranteed nonnegative — it equals the unclamped one-minute load
average per CPU and exceeds 100 whenever the load average exceeds the CPU
count; two calls on a host whose CPU list, platform, architecture and
release are unchanged yield identical platform and CPU-model strings. -/
theorem C8_amended (s : OsState) (h1 : s.cpus ≠ []) (h2 : 0 ≤ s.loadavg1)
    (h3 : s.freemem ≤ s.totalmem) (h4 : 0 < s.totalmem) :
    ((getServerSpecs s).cpuUsagePct).isSome = true ∧
    (∀ u, (getServerSpecs s).cpuUsagePct = some u →
        0 ≤ u ∧ (10 * u).den = 1) ∧
    ((getServerSpecs s).memUsagePct).isSome = true ∧
    (∀ v, (getServerSpecs s).memUsagePct = some v →
        0 ≤ v ∧ v ≤ 100 ∧ (10 * v).den = 1) ∧
    (∀ s2 : OsState, s2.cpus = s.cpus → s2.platformName = s.platformName →
        s2.arch = s.arch → s2.release = s.release →
        (getServerSpecs s2).cpuModel = (getServerSpecs s).cpuModel ∧
        (getServerSpecs s2).platformInfo = (getServerSpecs s).platformInfo) := by
  have hlen : ((s.cpus.length : ℚ)) ≠ 0 := by
    have : s.cpus.length ≠ 0 := by
      simpa [List.length_eq_zero] using h1
    exact_mod_cast this
  have hlenpos : (0 : ℚ) < (s.cpus.length : ℚ) :=
    lt_of_le_of_ne (by positivity) (Ne.symm hlen)
  have htm : ((s.totalmem : ℚ)) ≠ 0 := by
    have : s.totalmem ≠ 0 := Nat.pos_iff_ne_zero.mp h4
    exact_mod_cast this
  have htmpos : (0 : ℚ) < (s.totalmem : ℚ) := by
    exact_mod_cast h4
  refine ⟨?_, ?_, ?_, ?_, ?_⟩
  · simp [getServerSpecs, jsDivQ, hlen]
  · intro u hu
    simp only [getServerSpecs, jsDivQ, if_neg hlen, Option.map_some'] at hu
    rw [Option.some_inj] at hu
    subst hu
    constructor
    · apply div_nonneg _ (by norm_num)
      have : (0 : ℚ) ≤ s.loadavg1 / (s.cpus.length : ℚ) * 1000 := by positivity
      exact_mod_cast jsRound_nonneg _ this
    · exact one_decimal _
  · simp [getServerSpecs, jsDivQ, htm]
  · intro v hv
    simp only [getServerSpecs, jsDivQ, if_neg htm, Option.map_some'] at hv
    rw [Option.some_inj] at hv
    subst hv
    have hused0 : (0 : ℚ) ≤ (((s.totalmem : ℤ) - (s.freemem : ℤ) : ℤ) : ℚ) := by
      push_cast
      have : (s.freemem : ℚ) ≤ (s.totalmem : ℚ) := by exact_mod_cast h3
      linarith
    have husedle : (((s.totalmem : ℤ) - (s.freemem : ℤ) : ℤ) : ℚ) ≤
        (s.totalmem : ℚ) := by
      push_cast
      have : (0 : ℚ) ≤ (s.freemem : ℚ) := by positivity
      linarith
    have hratio : (((s.totalmem : ℤ) - (s.freemem : ℤ) : ℤ) : ℚ) /
        (s.totalmem : ℚ) ≤ 1 :=
      (div_le_one htmpos).mpr husedle
    have hratio0 : (0 : ℚ) ≤ (((s.totalmem : ℤ) - (s.freemem : ℤ) : ℤ) : ℚ) /
        (s.totalmem : ℚ) := div_nonneg hused0 (le_of_lt htmpos)
    refine ⟨?_, ?_, one_decimal _⟩
    · apply div_nonneg _ (by norm_num)
      have : (0 : ℚ) ≤ (((s.totalmem : ℤ) - (s.freemem : ℤ) : ℤ) : ℚ) /
          (s.totalmem : ℚ) * 1000 := by positivity
      exact_mod_cast jsRound_nonneg _ this
    · have hb : (((s.totalmem : ℤ) - (s.freemem : ℤ) : ℤ) : ℚ) /
          (s.totalmem : ℚ) * 1000 ≤ ((1000 : ℤ) : ℚ) := by
        have h1000 : ((1000 : ℤ) : ℚ) = 1000 := by norm_num
        rw [h1000]
        calc (((s.totalmem : ℤ) - (s.freemem : ℤ) : ℤ) : ℚ) /
              (s.totalmem : ℚ) * 1000
            ≤ 1 * 1000 := mul_le_mul_of_nonneg_right hratio (by norm_num)
          _ = 1000 := by norm_num
      have := jsRound_le _ 1000 hb
      rw [div_le_iff₀ (by norm_num : (0 : ℚ) < 10)]
      calc ((jsRound ((((s.totalmem : ℤ) - (s.freemem : ℤ) : ℤ) : ℚ) /
              (s.totalmem : ℚ) * 1000) : ℤ) : ℚ)
          ≤ ((1000 : ℤ) : ℚ) := by exact_mod_cast this
        _ = 100 * 10 := by norm_num
  · intro s2 hc hp ha hr2
    constructor
    · simp only [getServerSpecs]
      rw [hc]
    · simp only [getServerSpecs]
      rw [hp, ha, hr2]

/-- Claim C8, witness for the amended theorem on the plausible host `osW`:
CPU usage 50.0 percent, memory usage 75.0 percent, and identical identity
strings across two calls. -/
theorem C8_witness :
    ((getServerSpecs osW).cpuUsagePct).isSome = true ∧
    (0 ≤ (50 : ℚ) ∧ ((10 : ℚ) * 50).den = 1) ∧
    ((getServerSpecs osW).memUsagePct).isSome = true ∧
    (0 ≤ (75 : ℚ) ∧ (75 : ℚ) ≤ 100 ∧ ((10 : ℚ) * 75).den = 1) ∧
    ((getServerSpecs osW).cpuModel = (getServerSpecs osW).cpuModel ∧
      (getServerSpecs osW).platformInfo = (getServerSpecs osW).platformInfo) := by
  have happ := C8_amended osW (by with_unfolding_all decide)
    (by with_unfolding_all decide) (by with_unfolding_all decide)
    (by with_unfolding_all decide)
  exact ⟨happ.1, happ.2.1 50 (by with_unfolding_all decide),
    happ.2.2.1, happ.2.2.2.1 75 (by with_unfolding_all decide),
    happ.2.2.2.2 osW rfl rfl rfl rfl⟩

end NodeSqlite
